import Mathlib

/-!
Verification of the Deploy-to-Grading orchestrator
(`scripts/deploy_to_grading.py`) via a shallow embedding.

The script is a sequential driver that shells out to external programs.
We model the outside world as an oracle (`PyEnv`) that determines the
results of YAML loads, subprocess return codes and file-existence
probes, and we model the orchestrator as a writer monad producing a
trace of observable events (every `print` call and every
`subprocess.run` invocation, in order) together with a termination
outcome: normal return, `exit(-1)`, or an uncaught Python exception
(`KeyError` from a missing dict key, `TypeError` from a duplicate
keyword argument in a call).  Subprocesses are opaque: their only
modelled effect is their return code, supplied by the oracle.
-/

set_option autoImplicit false

namespace D2G

/-- An environment-style string-to-string mapping (a Python `dict` as
consumed by the orchestrator), represented as an association list. -/
abbrev Config : Type := List (String × String)

/-- First-match association-list lookup: `lookupc c k` is the value the
Python dict `c` maps `k` to. -/
def lookupc : Config → String → Option String
  | [], _ => none
  | (k, v) :: rest, key => if k = key then some v else lookupc rest key

/-- One observable effect of the orchestrator: a `print` call, or a
`subprocess.run` call with its argument vector, optional working
directory (`cwd=`) and optional explicit environment (`env=`). -/
inductive Event : Type
  | print (s : String)
  | run (cmd : List String) (cwd : Option String) (penv : Option Config)
  deriving DecidableEq

/-- How a run of the orchestrator terminates abnormally:
`errorExit` is the `exit(-1)` performed by `_print_error_and_exit`;
`keyError k` is an uncaught Python `KeyError` raised by a dict
subscript on a missing key `k`; `typeError k` is an uncaught Python
`TypeError` raised by a call that receives the keyword argument `k`
twice (see `pyKwargs2`). -/
inductive Abort : Type
  | errorExit
  | keyError (k : String)
  | typeError (k : String)
  deriving DecidableEq

deriving instance DecidableEq for Except

/-- Result of `load_yaml.load_yaml(path, prefix)`: a mapping on
success, or one of the two exceptions the orchestrator catches
(`FileNotFoundError`, `yaml.YAMLError`). -/
inductive LoadResult : Type
  | ok (c : Config)
  | notFound
  | parseError

/-- The external world as seen by the orchestrator: what each YAML
load yields, the return code of each subprocess invocation, which
files exist, and the contents of `os.environ`. -/
structure PyEnv : Type where
  loadYaml : String → Option String → LoadResult
  runResult : List String → Option String → Option Config → Int
  fileExists : String → Bool
  osEnviron : Config

/-- The orchestrator monad: the chronological trace of events emitted
so far, together with either a normal result or an abnormal
termination.  (A writer monad: no code of the script ever reads its
own past output, so state-passing is not needed.) -/
@[reducible] def M (α : Type) : Type := List Event × Except Abort α

def M.pure {α : Type} (a : α) : M α := ([], Except.ok a)

def M.bind {α β : Type} (x : M α) (f : α → M β) : M β :=
  match x with
  | (tr, Except.ok a) =>
    match f a with
    | (tr2, r) => (tr ++ tr2, r)
  | (tr, Except.error e) => (tr, Except.error e)

instance : Monad M where
  pure := M.pure
  bind := M.bind

/-- Emit one observable event. -/
def emit (e : Event) : M Unit := ([e], Except.ok ())

/-- Terminate the process abnormally. -/
def abort {α : Type} (a : Abort) : M α := ([], Except.error a)

@[simp] theorem M.pure_def {α : Type} (a : α) : M.pure a = (([], Except.ok a) : M α) := rfl

@[simp] theorem M.purePure_def {α : Type} (a : α) : (pure a : M α) = ([], Except.ok a) := rfl

@[simp] theorem M.bind_def {α β : Type} (x : M α) (f : α → M β) :
    x >>= f = M.bind x f := rfl

@[simp] theorem M.bind_pair_error {α β : Type} (tr : List Event) (e : Abort) (f : α → M β) :
    M.bind (tr, Except.error e) f = ((tr, Except.error e) : M β) := rfl

@[simp] theorem M.bind_pair_ok {α β : Type} (tr : List Event) (a : α) (f : α → M β) :
    M.bind (tr, Except.ok a) f = ((tr ++ (f a).1, (f a).2) : M β) := by
  unfold M.bind
  rcases h : f a with ⟨tr2, r⟩
  simp [h]

/-- Python `str(x)` for an optional string (`str(None) = "None"`),
as used by `"%s" % taskname` in `_override_repo`. -/
def pyStr : Option String → String
  | none => "None"
  | some s => s

/-- Python `s.split(" ")` (explicit single-space separator): splits at
every space, keeping empty pieces, and yields `[""]` on the empty
string. -/
def pySplitSpace (s : String) : List String :=
  s.data.foldr
    (fun c acc =>
      if c = ' ' then "" :: acc
      else
        match acc with
        | [] => [String.mk [c]]
        | a :: as => String.mk (c :: a.data) :: as)
    [""]

/-- Python `s.upper()` for the ASCII identifiers used by the script. -/
def pyUpper (s : String) : String := String.mk (s.data.map Char.toUpper)

/-- Whether a string starts with the character `/`. -/
def startsWithSlash (s : String) : Bool :=
  match s.data with
  | [] => false
  | c :: _ => c = '/'

/-- Whether a string ends with the character `/`. -/
def endsWithSlash (s : String) : Bool :=
  match s.data.getLast? with
  | some c => c = '/'
  | none => false

/-- `os.path.join(a, b)` for the two-argument POSIX case actually used
by the script. -/
def osPathJoin (a b : String) : String :=
  if startsWithSlash b then b
  else if a = "" ∨ endsWithSlash a then a ++ b
  else a ++ "/" ++ b

/-- A dict subscript `c[k]`: the value when the key is present, an
uncaught `KeyError` otherwise. -/
def pyGetItem (c : Config) (k : String) : M String :=
  match lookupc c k with
  | some v => M.pure v
  | none => abort (Abort.keyError k)

/-- `dict(base, **upd)` / `dict(base, ...)` update as a mapping: the
result maps `k` to `upd[k]` when present and to `base[k]` otherwise.
(Python also fixes a key insertion order for the resulting dict; the
orchestrator only ever hands these dicts to `subprocess.run(env=...)`,
which treats them as mappings, so the order is not modelled.) -/
def pyDictUpdate (base upd : Config) : Config := upd ++ base

/-- The first key of `kw2` that also occurs in `kw1`, if any: the key
at which CPython raises when the same keyword is supplied twice. -/
def firstDupKey (kw1 kw2 : Config) : Option String :=
  (kw2.find? fun q => (lookupc kw1 q.1).isSome).map fun q => q.1

/-- A Python call `f(base, **kw1, **kw2)` building a dict, as in
`dict(os.environ, **task_configuration, **assignment_configuration)`:
per PEP 448, a key occurring in both `kw1` and `kw2` makes the call
itself raise `TypeError: got multiple values for keyword argument k`
(uncaught by the script); otherwise the result is `base` updated with
`kw1` and then with `kw2`. -/
def pyKwargs2 (base kw1 kw2 : Config) : M Config :=
  match firstDupKey kw1 kw2 with
  | some k => abort (Abort.typeError k)
  | none => M.pure (pyDictUpdate (pyDictUpdate base kw1) kw2)

/-- `subprocess.run(cmd, cwd=cwd, env=penv)`: records the invocation
in the trace and returns the oracle-supplied return code. -/
def runProc (env : PyEnv) (cmd : List String) (cwd : Option String)
    (penv : Option Config) : M Int := do
  emit (Event.run cmd cwd penv)
  M.pure (env.runResult cmd cwd penv)

def ASSIGNMENT_FILE_NAME : String := "assignment.yml"

def TASK_FILENAME : String := "task.yml"

/-- `_print_usage()`. -/
def _print_usage : M Unit := do
  emit (Event.print "usage: deploy_to_grading.py")
  emit (Event.print "       Executes the Deploy-to-Grading pipeline. Make sure to")
  emit (Event.print "       execute the script inside an assignment folder and")
  emit (Event.print "       that the D2G_PATH env variable is set.")

/-- `_print_error_and_exit(error_msg)`: prints the message, prints the
usage reminder and calls `exit(-1)` (which raises `SystemExit`, so the
function never returns; hence the result type is arbitrary). -/
def _print_error_and_exit {α : Type} (error_msg : String) : M α := do
  emit (Event.print error_msg)
  _print_usage
  abort Abort.errorExit

/-- `_load_assignment_config()`. -/
def _load_assignment_config (env : PyEnv) : M Config := do
  emit (Event.print "Loading assignment configuration")
  match env.loadYaml ASSIGNMENT_FILE_NAME none with
  | LoadResult.ok c => M.pure c
  | LoadResult.notFound => _print_error_and_exit ("Failed to load " ++ ASSIGNMENT_FILE_NAME)
  | LoadResult.parseError => _print_error_and_exit ("Failed to load " ++ ASSIGNMENT_FILE_NAME)

/-- `_checkout_due_date(due_date)`. -/
def _checkout_due_date (env : PyEnv) (due_date : String) : M Unit := do
  emit (Event.print "Checking out due date")
  let d2g ← pyGetItem env.osEnviron "D2G_PATH"
  let script_path := osPathJoin d2g "scripts/checkout_due_date.sh"
  let rc ← runProc env [script_path, due_date] none none
  if rc ≠ 0 then _print_error_and_exit "Failed to evaluate checkout commit"
  else M.pure ()

/-- `_load_task_config(taskname)`. -/
def _load_task_config (env : PyEnv) (taskname : String) : M Config := do
  emit (Event.print ("Loading task configuration for task " ++ taskname))
  let task_config_path := osPathJoin taskname TASK_FILENAME
  match env.loadYaml task_config_path (some (pyUpper taskname)) with
  | LoadResult.ok c => M.pure c
  | LoadResult.notFound => _print_error_and_exit ("Failed to load " ++ task_config_path)
  | LoadResult.parseError => _print_error_and_exit ("Failed to load " ++ task_config_path)

/-- `_override_repo(taskname, repository, task_configuration)`.
`taskname` is `None` for the assignment-level call; note that Python
`if taskname:` is false both for `None` and for the empty string, so a
task named `""` also takes the `-a` branch. -/
def _override_repo (env : PyEnv) (taskname : Option String) (repository : String)
    (task_configuration : Option Config) : M Unit := do
  emit (Event.print ("Overriding repository for task " ++ pyStr taskname))
  let d2g ← pyGetItem env.osEnviron "D2G_PATH"
  let script_path := osPathJoin d2g "scripts/override_repo.py"
  let rc ←
    match taskname with
    | some t =>
      if t ≠ "" then
        runProc env [script_path, "-t", t, "-r", repository] (some t) task_configuration
      else
        runProc env [script_path, "-a", "-r", repository] none none
    | none => runProc env [script_path, "-a", "-r", repository] none none
  if rc ≠ 0 then _print_error_and_exit "Failed to execute override_repo.py"
  else M.pure ()

/-- `_get_metric_script_path(metric)`. -/
def _get_metric_script_path (env : PyEnv) (metric : String) : M (List String) := do
  let d2g ← pyGetItem env.osEnviron "D2G_PATH"
  let base_path := osPathJoin d2g ("scripts/metrics/" ++ metric)
  if env.fileExists (base_path ++ ".sh") then M.pure [base_path ++ ".sh"]
  else if env.fileExists (base_path ++ ".py") then M.pure [base_path ++ ".py"]
  else M.pure ["./gradlew", metric]

/-- The body of the `for metric in metrics.split(" ")` loop of
`_execute_metrics`, over the remaining metric names. -/
def _execute_metrics_loop (env : PyEnv) (taskname : String) : List String → M Unit
  | [] => M.pure ()
  | metric :: rest => do
    emit (Event.print ("Executing metric " ++ metric ++ " for task " ++ taskname))
    let metric_script ← _get_metric_script_path env metric
    let rc ← runProc env metric_script (some taskname) none
    if rc ≠ 0 then _print_error_and_exit ("Failed to execute metric " ++ metric)
    else _execute_metrics_loop env taskname rest

/-- `_execute_metrics(taskname, metrics)`. -/
def _execute_metrics (env : PyEnv) (taskname metrics : String) : M Unit :=
  _execute_metrics_loop env taskname (pySplitSpace metrics)

/-- `_evaluate_metrics(taskname, metrics, task_configuration,
assignment_configuration)` (the `metrics` parameter is unused by the
source as well). -/
def _evaluate_metrics (env : PyEnv) (taskname metrics : String)
    (task_configuration assignment_configuration : Config) : M Unit := do
  emit (Event.print ("Evaluating metrics for task " ++ taskname))
  let d2g ← pyGetItem env.osEnviron "D2G_PATH"
  let script_path := osPathJoin d2g "scripts/evaluate_task.py"
  let merged ← pyKwargs2 env.osEnviron task_configuration assignment_configuration
  let rc ← runProc env [script_path, taskname] (some taskname) (some merged)
  if rc ≠ 0 then _print_error_and_exit "Failed to execute evaluate_task.py"
  else M.pure ()

/-- `_evaluate_task(taskname, assignment_configuration)`.  The dict
subscripts are evaluated before the calls they feed, as in the source;
`task_conf["%s_METRICS" % taskname.upper()]` is evaluated twice. -/
def _evaluate_task (env : PyEnv) (taskname : String)
    (assignment_configuration : Config) : M Unit := do
  let task_conf ← _load_task_config env taskname
  let repo ← pyGetItem assignment_configuration "ASSIGNMENT_TEMPLATE_REPOSITORY"
  _override_repo env (some taskname) repo (some task_conf)
  let metrics1 ← pyGetItem task_conf (pyUpper taskname ++ "_METRICS")
  _execute_metrics env taskname metrics1
  let metrics2 ← pyGetItem task_conf (pyUpper taskname ++ "_METRICS")
  _evaluate_metrics env taskname metrics2 task_conf assignment_configuration

/-- `_create_artifact(assignment_configuration)`. -/
def _create_artifact (env : PyEnv) (assignment_configuration : Config) : M Unit := do
  emit (Event.print "Creating artifact")
  let d2g ← pyGetItem env.osEnviron "D2G_PATH"
  let script_path := osPathJoin d2g "scripts/create_artifact.sh"
  let rc ← runProc env [script_path] none
    (some (pyDictUpdate env.osEnviron assignment_configuration))
  if rc ≠ 0 then _print_error_and_exit "Failed to execute create_artifact.sh"
  else M.pure ()

/-- `_present_results(assignment_configuration)`. -/
def _present_results (env : PyEnv) (assignment_configuration : Config) : M Unit := do
  _create_artifact env assignment_configuration
  let d2g ← pyGetItem env.osEnviron "D2G_PATH"
  let script_path := osPathJoin d2g "scripts/print_results_student.py"
  let rc ← runProc env [script_path] none
    (some (pyDictUpdate env.osEnviron assignment_configuration))
  if rc ≠ 0 then _print_error_and_exit "Failed to print student results"
  else M.pure ()

/-- `_revert_checkout()`: runs the revert script and ignores its
return code. -/
def _revert_checkout (env : PyEnv) : M Unit := do
  let d2g ← pyGetItem env.osEnviron "D2G_PATH"
  let script_path := osPathJoin d2g "scripts/revert_checkout.sh"
  let _ ← runProc env [script_path] none none
  M.pure ()

/-- The body of the `for task in ...split(" ")` loop of `_main`, over
the remaining task names. -/
def _main_loop (env : PyEnv) (assignment_conf : Config) : List String → M Unit
  | [] => M.pure ()
  | task :: rest => do
    _evaluate_task env task assignment_conf
    _main_loop env assignment_conf rest

/-- `_main()`. -/
def _main (env : PyEnv) : M Unit := do
  let assignment_conf ← _load_assignment_config env
  let due ← pyGetItem assignment_conf "ASSIGNMENT_DUE_DATE"
  _checkout_due_date env due
  let repo ← pyGetItem assignment_conf "ASSIGNMENT_TEMPLATE_REPOSITORY"
  _override_repo env none repo none
  let tasks ← pyGetItem assignment_conf "ASSIGNMENT_TASKS"
  _main_loop env assignment_conf (pySplitSpace tasks)
  _present_results env assignment_conf
  _revert_checkout env

/-- One whole run of the script (`if __name__ == "__main__": _main()`). -/
def runD2G (env : PyEnv) : M Unit := _main env

/-- The exit status of the interpreter process: 0 on normal return;
`exit(-1)` makes CPython exit with status `-1 & 0xFF = 255`; an
uncaught exception (`KeyError`, `TypeError`) makes it exit with
status 1 after printing a traceback. -/
def processExitCode {α : Type} : Except Abort α → Int
  | Except.ok _ => 0
  | Except.error Abort.errorExit => 255
  | Except.error (Abort.keyError _) => 1
  | Except.error (Abort.typeError _) => 1

/-- The events printed by `_print_usage`. -/
def usageEvents : List Event :=
  [Event.print "usage: deploy_to_grading.py",
   Event.print "       Executes the Deploy-to-Grading pipeline. Make sure to",
   Event.print "       execute the script inside an assignment folder and",
   Event.print "       that the D2G_PATH env variable is set."]

/-- The events of the `_print_error_and_exit` abort path. -/
def errorEvents (msg : String) : List Event := Event.print msg :: usageEvents

/-- The command `_get_metric_script_path` resolves a metric to, given
that `D2G_PATH` is `p` (characterization used in lemma statements). -/
def metricCmd (env : PyEnv) (p metric : String) : List String :=
  if env.fileExists (osPathJoin p ("scripts/metrics/" ++ metric) ++ ".sh") then
    [osPathJoin p ("scripts/metrics/" ++ metric) ++ ".sh"]
  else if env.fileExists (osPathJoin p ("scripts/metrics/" ++ metric) ++ ".py") then
    [osPathJoin p ("scripts/metrics/" ++ metric) ++ ".py"]
  else ["./gradlew", metric]

/-- The two trace events of one iteration of the metric loop, given
that `D2G_PATH` is `p`. -/
def metricSegment (env : PyEnv) (p taskname metric : String) : List Event :=
  [Event.print ("Executing metric " ++ metric ++ " for task " ++ taskname),
   Event.run (metricCmd env p metric) (some taskname) none]

theorem M.bind_ok_inv {α β : Type} {x : M α} {f : α → M β} {tr : List Event} {b : β}
    (h : M.bind x f = (tr, Except.ok b)) :
    ∃ tr1 a tr2, x = (tr1, Except.ok a) ∧ f a = (tr2, Except.ok b) ∧ tr = tr1 ++ tr2 := by
  rcases x with ⟨trx, rx⟩
  cases rx with
  | error e => simp [M.bind] at h
  | ok a =>
    rw [M.bind_pair_ok] at h
    refine ⟨trx, a, (f a).1, rfl, ?_, (congrArg Prod.fst h).symm⟩
    have h2 : (f a).2 = Except.ok b := congrArg Prod.snd h
    calc f a = ((f a).1, (f a).2) := rfl
    _ = ((f a).1, Except.ok b) := by rw [h2]

@[simp] theorem emit_def (e : Event) : emit e = (([e], Except.ok ()) : M Unit) := rfl

@[simp] theorem abort_def {α : Type} (a : Abort) :
    (abort a : M α) = ([], Except.error a) := rfl

theorem print_error_and_exit_eq {α : Type} (msg : String) :
    (_print_error_and_exit msg : M α) = (errorEvents msg, Except.error Abort.errorExit) := rfl

theorem pyGetItem_some {c : Config} {k v : String} (h : lookupc c k = some v) :
    pyGetItem c k = (([], Except.ok v) : M String) := by
  unfold pyGetItem
  rw [h]
  rfl

theorem pyGetItem_none {c : Config} {k : String} (h : lookupc c k = none) :
    pyGetItem c k = (([], Except.error (Abort.keyError k)) : M String) := by
  unfold pyGetItem
  rw [h]
  rfl

theorem pyGetItem_ok_inv {c : Config} {k : String} {tr : List Event} {v : String}
    (h : pyGetItem c k = (tr, Except.ok v)) : lookupc c k = some v ∧ tr = [] := by
  cases hl : lookupc c k with
  | none => rw [pyGetItem_none hl] at h; simp at h
  | some w =>
    rw [pyGetItem_some hl] at h
    simp only [Prod.mk.injEq, Except.ok.injEq] at h
    exact ⟨congrArg some h.2, h.1.symm⟩

theorem load_assignment_eq (env : PyEnv) :
    _load_assignment_config env =
      match env.loadYaml "assignment.yml" none with
      | LoadResult.ok c => ([Event.print "Loading assignment configuration"], Except.ok c)
      | LoadResult.notFound =>
          (Event.print "Loading assignment configuration" ::
            errorEvents "Failed to load assignment.yml", Except.error Abort.errorExit)
      | LoadResult.parseError =>
          (Event.print "Loading assignment configuration" ::
            errorEvents "Failed to load assignment.yml", Except.error Abort.errorExit) := by
  unfold _load_assignment_config ASSIGNMENT_FILE_NAME
  cases env.loadYaml "assignment.yml" none <;> rfl

theorem load_assignment_ok_inv {env : PyEnv} {tr : List Event} {conf : Config}
    (h : _load_assignment_config env = (tr, Except.ok conf)) :
    env.loadYaml "assignment.yml" none = LoadResult.ok conf ∧
      tr = [Event.print "Loading assignment configuration"] := by
  rw [load_assignment_eq] at h
  cases hl : env.loadYaml "assignment.yml" none <;> rw [hl] at h <;>
    simp_all

theorem load_task_eq (env : PyEnv) (taskname : String) :
    _load_task_config env taskname =
      match env.loadYaml (osPathJoin taskname "task.yml") (some (pyUpper taskname)) with
      | LoadResult.ok c =>
          ([Event.print ("Loading task configuration for task " ++ taskname)], Except.ok c)
      | LoadResult.notFound =>
          (Event.print ("Loading task configuration for task " ++ taskname) ::
            errorEvents ("Failed to load " ++ osPathJoin taskname "task.yml"),
           Except.error Abort.errorExit)
      | LoadResult.parseError =>
          (Event.print ("Loading task configuration for task " ++ taskname) ::
            errorEvents ("Failed to load " ++ osPathJoin taskname "task.yml"),
           Except.error Abort.errorExit) := by
  simp only [_load_task_config, TASK_FILENAME]
  cases env.loadYaml (osPathJoin taskname "task.yml") (some (pyUpper taskname)) <;> rfl

theorem load_task_ok_inv {env : PyEnv} {taskname : String} {tr : List Event} {conf : Config}
    (h : _load_task_config env taskname = (tr, Except.ok conf)) :
    env.loadYaml (osPathJoin taskname "task.yml") (some (pyUpper taskname)) = LoadResult.ok conf ∧
      tr = [Event.print ("Loading task configuration for task " ++ taskname)] := by
  rw [load_task_eq] at h
  cases hl : env.loadYaml (osPathJoin taskname "task.yml") (some (pyUpper taskname)) <;>
    rw [hl] at h <;> simp_all

theorem checkout_eq (env : PyEnv) (due p : String)
    (hp : lookupc env.osEnviron "D2G_PATH" = some p) :
    _checkout_due_date env due =
      (if env.runResult [osPathJoin p "scripts/checkout_due_date.sh", due] none none ≠ 0 then
        ([Event.print "Checking out due date",
          Event.run [osPathJoin p "scripts/checkout_due_date.sh", due] none none] ++
          errorEvents "Failed to evaluate checkout commit", Except.error Abort.errorExit)
      else
        ([Event.print "Checking out due date",
          Event.run [osPathJoin p "scripts/checkout_due_date.sh", due] none none],
         Except.ok ())) := by
  unfold _checkout_due_date
  rw [pyGetItem_some hp]
  by_cases h0 : env.runResult [osPathJoin p "scripts/checkout_due_date.sh", due] none none = 0 <;>
    simp [h0, runProc, print_error_and_exit_eq, errorEvents, usageEvents]

theorem checkout_ok_inv {env : PyEnv} {due : String} {tr : List Event}
    (h : _checkout_due_date env due = (tr, Except.ok ())) :
    ∃ p, lookupc env.osEnviron "D2G_PATH" = some p ∧
      env.runResult [osPathJoin p "scripts/checkout_due_date.sh", due] none none = 0 ∧
      tr = [Event.print "Checking out due date",
            Event.run [osPathJoin p "scripts/checkout_due_date.sh", due] none none] := by
  cases hl : lookupc env.osEnviron "D2G_PATH" with
  | none =>
    unfold _checkout_due_date at h
    rw [pyGetItem_none hl] at h
    simp at h
  | some p =>
    rw [checkout_eq env due p hl] at h
    by_cases h0 : env.runResult [osPathJoin p "scripts/checkout_due_date.sh", due] none none = 0
    · rw [if_neg (by simpa using h0)] at h
      exact ⟨p, rfl, h0, (congrArg Prod.fst h).symm⟩
    · rw [if_pos (by simpa using h0)] at h
      simp at h

theorem override_none_eq (env : PyEnv) (repo p : String)
    (hp : lookupc env.osEnviron "D2G_PATH" = some p) :
    _override_repo env none repo none =
      (if env.runResult [osPathJoin p "scripts/override_repo.py", "-a", "-r", repo]
            none none ≠ 0 then
        ([Event.print "Overriding repository for task None",
          Event.run [osPathJoin p "scripts/override_repo.py", "-a", "-r", repo] none none] ++
          errorEvents "Failed to execute override_repo.py", Except.error Abort.errorExit)
      else
        ([Event.print "Overriding repository for task None",
          Event.run [osPathJoin p "scripts/override_repo.py", "-a", "-r", repo] none none],
         Except.ok ())) := by
  unfold _override_repo
  rw [pyGetItem_some hp]
  by_cases h0 : env.runResult [osPathJoin p "scripts/override_repo.py", "-a", "-r", repo]
      none none = 0 <;>
    simp [h0, pyStr, runProc, print_error_and_exit_eq, errorEvents, usageEvents]

theorem override_none_ok_inv {env : PyEnv} {repo : String} {tr : List Event}
    (h : _override_repo env none repo none = (tr, Except.ok ())) :
    ∃ p, lookupc env.osEnviron "D2G_PATH" = some p ∧
      env.runResult [osPathJoin p "scripts/override_repo.py", "-a", "-r", repo] none none = 0 ∧
      tr = [Event.print "Overriding repository for task None",
            Event.run [osPathJoin p "scripts/override_repo.py", "-a", "-r", repo] none none] := by
  cases hl : lookupc env.osEnviron "D2G_PATH" with
  | none =>
    unfold _override_repo at h
    rw [pyGetItem_none hl] at h
    simp [pyStr] at h
  | some p =>
    rw [override_none_eq env repo p hl] at h
    by_cases h0 : env.runResult [osPathJoin p "scripts/override_repo.py", "-a", "-r", repo]
        none none = 0
    · rw [if_neg (by simpa using h0)] at h
      exact ⟨p, rfl, h0, (congrArg Prod.fst h).symm⟩
    · rw [if_pos (by simpa using h0)] at h
      simp at h

theorem override_some_eq (env : PyEnv) (t repo p : String) (tc : Option Config)
    (hp : lookupc env.osEnviron "D2G_PATH" = some p) (ht : t ≠ "") :
    _override_repo env (some t) repo tc =
      (if env.runResult [osPathJoin p "scripts/override_repo.py", "-t", t, "-r", repo]
            (some t) tc ≠ 0 then
        ([Event.print ("Overriding repository for task " ++ t),
          Event.run [osPathJoin p "scripts/override_repo.py", "-t", t, "-r", repo]
            (some t) tc] ++
          errorEvents "Failed to execute override_repo.py", Except.error Abort.errorExit)
      else
        ([Event.print ("Overriding repository for task " ++ t),
          Event.run [osPathJoin p "scripts/override_repo.py", "-t", t, "-r", repo]
            (some t) tc],
         Except.ok ())) := by
  unfold _override_repo
  rw [pyGetItem_some hp]
  by_cases h0 : env.runResult [osPathJoin p "scripts/override_repo.py", "-t", t, "-r", repo]
      (some t) tc = 0 <;>
    simp [h0, ht, pyStr, runProc, print_error_and_exit_eq, errorEvents, usageEvents]

theorem override_empty_eq (env : PyEnv) (repo p : String) (tc : Option Config)
    (hp : lookupc env.osEnviron "D2G_PATH" = some p) :
    _override_repo env (some "") repo tc =
      (if env.runResult [osPathJoin p "scripts/override_repo.py", "-a", "-r", repo]
            none none ≠ 0 then
        ([Event.print "Overriding repository for task ",
          Event.run [osPathJoin p "scripts/override_repo.py", "-a", "-r", repo] none none] ++
          errorEvents "Failed to execute override_repo.py", Except.error Abort.errorExit)
      else
        ([Event.print "Overriding repository for task ",
          Event.run [osPathJoin p "scripts/override_repo.py", "-a", "-r", repo] none none],
         Except.ok ())) := by
  unfold _override_repo
  rw [pyGetItem_some hp]
  by_cases h0 : env.runResult [osPathJoin p "scripts/override_repo.py", "-a", "-r", repo]
      none none = 0 <;>
    simp [h0, pyStr, runProc, print_error_and_exit_eq, errorEvents, usageEvents]

theorem override_some_ok_inv {env : PyEnv} {t repo : String} {tc : Option Config}
    {tr : List Event}
    (h : _override_repo env (some t) repo tc = (tr, Except.ok ())) :
    ∃ p, lookupc env.osEnviron "D2G_PATH" = some p := by
  cases hl : lookupc env.osEnviron "D2G_PATH" with
  | none =>
    unfold _override_repo at h
    rw [pyGetItem_none hl] at h
    simp [pyStr] at h
  | some p => exact ⟨p, rfl⟩

theorem get_metric_eq (env : PyEnv) (metric p : String)
    (hp : lookupc env.osEnviron "D2G_PATH" = some p) :
    _get_metric_script_path env metric = ([], Except.ok (metricCmd env p metric)) := by
  unfold _get_metric_script_path metricCmd
  rw [pyGetItem_some hp]
  by_cases h1 : env.fileExists (osPathJoin p ("scripts/metrics/" ++ metric) ++ ".sh") = true <;>
    by_cases h2 : env.fileExists (osPathJoin p ("scripts/metrics/" ++ metric) ++ ".py") = true <;>
    simp [h1, h2]

theorem metrics_loop_ok_inv (env : PyEnv) (t p : String)
    (hp : lookupc env.osEnviron "D2G_PATH" = some p) :
    ∀ (l : List String) (tr : List Event),
      _execute_metrics_loop env t l = (tr, Except.ok ()) →
      tr = l.flatMap (metricSegment env p t) ∧
        ∀ m ∈ l, env.runResult (metricCmd env p m) (some t) none = 0 := by
  intro l
  induction l with
  | nil =>
    intro tr h
    simp only [_execute_metrics_loop, M.pure_def, Prod.mk.injEq] at h
    simp [h.1.symm]
  | cons m rest ih =>
    intro tr h
    rcases hrest : _execute_metrics_loop env t rest with ⟨trR, rR⟩
    simp only [_execute_metrics_loop] at h
    rw [get_metric_eq env m p hp] at h
    by_cases h0 : env.runResult (metricCmd env p m) (some t) none = 0
    · simp [runProc, hrest, h0] at h
      obtain ⟨h1, h2⟩ := h
      obtain ⟨h3, h4⟩ := ih trR (by rw [hrest, h2])
      subst h1
      subst h3
      refine ⟨by simp [metricSegment], ?_⟩
      intro m1 hmem
      rcases List.mem_cons.mp hmem with he | hm
      · rw [he]
        exact h0
      · exact h4 m1 hm
    · simp [runProc, h0, print_error_and_exit_eq] at h

theorem evaluate_metrics_dup_eq (env : PyEnv) (t m p k : String) (tc ac : Config)
    (hp : lookupc env.osEnviron "D2G_PATH" = some p)
    (hd : firstDupKey tc ac = some k) :
    _evaluate_metrics env t m tc ac =
      ([Event.print ("Evaluating metrics for task " ++ t)],
       Except.error (Abort.typeError k)) := by
  unfold _evaluate_metrics pyKwargs2
  rw [pyGetItem_some hp, hd]
  simp

theorem evaluate_metrics_eq (env : PyEnv) (t m p : String) (tc ac : Config)
    (hp : lookupc env.osEnviron "D2G_PATH" = some p)
    (hd : firstDupKey tc ac = none) :
    _evaluate_metrics env t m tc ac =
      (if env.runResult [osPathJoin p "scripts/evaluate_task.py", t] (some t)
            (some (pyDictUpdate (pyDictUpdate env.osEnviron tc) ac)) ≠ 0 then
        ([Event.print ("Evaluating metrics for task " ++ t),
          Event.run [osPathJoin p "scripts/evaluate_task.py", t] (some t)
            (some (pyDictUpdate (pyDictUpdate env.osEnviron tc) ac))] ++
          errorEvents "Failed to execute evaluate_task.py", Except.error Abort.errorExit)
      else
        ([Event.print ("Evaluating metrics for task " ++ t),
          Event.run [osPathJoin p "scripts/evaluate_task.py", t] (some t)
            (some (pyDictUpdate (pyDictUpdate env.osEnviron tc) ac))],
         Except.ok ())) := by
  unfold _evaluate_metrics pyKwargs2
  rw [pyGetItem_some hp, hd]
  by_cases h0 : env.runResult [osPathJoin p "scripts/evaluate_task.py", t] (some t)
      (some (pyDictUpdate (pyDictUpdate env.osEnviron tc) ac)) = 0 <;>
    simp [h0, runProc, print_error_and_exit_eq, errorEvents, usageEvents]

theorem evaluate_metrics_ok_inv {env : PyEnv} {t m : String} {tc ac : Config}
    {tr : List Event}
    (h : _evaluate_metrics env t m tc ac = (tr, Except.ok ())) :
    ∃ p, lookupc env.osEnviron "D2G_PATH" = some p ∧
      firstDupKey tc ac = none ∧
      env.runResult [osPathJoin p "scripts/evaluate_task.py", t] (some t)
        (some (pyDictUpdate (pyDictUpdate env.osEnviron tc) ac)) = 0 ∧
      tr = [Event.print ("Evaluating metrics for task " ++ t),
            Event.run [osPathJoin p "scripts/evaluate_task.py", t] (some t)
              (some (pyDictUpdate (pyDictUpdate env.osEnviron tc) ac))] := by
  cases hl : lookupc env.osEnviron "D2G_PATH" with
  | none =>
    unfold _evaluate_metrics at h
    rw [pyGetItem_none hl] at h
    simp at h
  | some p =>
    cases hd : firstDupKey tc ac with
    | some k =>
      rw [evaluate_metrics_dup_eq env t m p k tc ac hl hd] at h
      simp at h
    | none =>
      rw [evaluate_metrics_eq env t m p tc ac hl hd] at h
      by_cases h0 : env.runResult [osPathJoin p "scripts/evaluate_task.py", t] (some t)
          (some (pyDictUpdate (pyDictUpdate env.osEnviron tc) ac)) = 0
      · rw [if_neg (by simpa using h0)] at h
        exact ⟨p, rfl, rfl, h0, (congrArg Prod.fst h).symm⟩
      · rw [if_pos (by simpa using h0)] at h
        simp at h

theorem present_results_eq (env : PyEnv) (p : String) (conf : Config)
    (hp : lookupc env.osEnviron "D2G_PATH" = some p) :
    _present_results env conf =
      (if env.runResult [osPathJoin p "scripts/create_artifact.sh"] none
            (some (pyDictUpdate env.osEnviron conf)) ≠ 0 then
        ([Event.print "Creating artifact",
          Event.run [osPathJoin p "scripts/create_artifact.sh"] none
            (some (pyDictUpdate env.osEnviron conf))] ++
          errorEvents "Failed to execute create_artifact.sh", Except.error Abort.errorExit)
      else if env.runResult [osPathJoin p "scripts/print_results_student.py"] none
            (some (pyDictUpdate env.osEnviron conf)) ≠ 0 then
        ([Event.print "Creating artifact",
          Event.run [osPathJoin p "scripts/create_artifact.sh"] none
            (some (pyDictUpdate env.osEnviron conf)),
          Event.run [osPathJoin p "scripts/print_results_student.py"] none
            (some (pyDictUpdate env.osEnviron conf))] ++
          errorEvents "Failed to print student results", Except.error Abort.errorExit)
      else
        ([Event.print "Creating artifact",
          Event.run [osPathJoin p "scripts/create_artifact.sh"] none
            (some (pyDictUpdate env.osEnviron conf)),
          Event.run [osPathJoin p "scripts/print_results_student.py"] none
            (some (pyDictUpdate env.osEnviron conf))],
         Except.ok ())) := by
  unfold _present_results _create_artifact
  rw [pyGetItem_some hp]
  by_cases h1 : env.runResult [osPathJoin p "scripts/create_artifact.sh"] none
      (some (pyDictUpdate env.osEnviron conf)) = 0 <;>
    by_cases h2 : env.runResult [osPathJoin p "scripts/print_results_student.py"] none
        (some (pyDictUpdate env.osEnviron conf)) = 0 <;>
    simp [h1, h2, runProc, print_error_and_exit_eq, errorEvents, usageEvents]

theorem present_results_ok_inv {env : PyEnv} {conf : Config} {tr : List Event}
    (h : _present_results env conf = (tr, Except.ok ())) :
    ∃ p, lookupc env.osEnviron "D2G_PATH" = some p ∧
      env.runResult [osPathJoin p "scripts/create_artifact.sh"] none
        (some (pyDictUpdate env.osEnviron conf)) = 0 ∧
      env.runResult [osPathJoin p "scripts/print_results_student.py"] none
        (some (pyDictUpdate env.osEnviron conf)) = 0 ∧
      tr = [Event.print "Creating artifact",
            Event.run [osPathJoin p "scripts/create_artifact.sh"] none
              (some (pyDictUpdate env.osEnviron conf)),
            Event.run [osPathJoin p "scripts/print_results_student.py"] none
              (some (pyDictUpdate env.osEnviron conf))] := by
  cases hl : lookupc env.osEnviron "D2G_PATH" with
  | none =>
    unfold _present_results _create_artifact at h
    rw [pyGetItem_none hl] at h
    simp at h
  | some p =>
    rw [present_results_eq env p conf hl] at h
    by_cases h1 : env.runResult [osPathJoin p "scripts/create_artifact.sh"] none
        (some (pyDictUpdate env.osEnviron conf)) = 0
    · by_cases h2 : env.runResult [osPathJoin p "scripts/print_results_student.py"] none
          (some (pyDictUpdate env.osEnviron conf)) = 0
      · rw [if_neg (by simpa using h1), if_neg (by simpa using h2)] at h
        exact ⟨p, rfl, h1, h2, (congrArg Prod.fst h).symm⟩
      · rw [if_neg (by simpa using h1), if_pos (by simpa using h2)] at h
        simp at h
    · rw [if_pos (by simpa using h1)] at h
      simp at h

theorem revert_eq (env : PyEnv) (p : String)
    (hp : lookupc env.osEnviron "D2G_PATH" = some p) :
    _revert_checkout env =
      ([Event.run [osPathJoin p "scripts/revert_checkout.sh"] none none], Except.ok ()) := by
  unfold _revert_checkout
  rw [pyGetItem_some hp]
  simp [runProc]

theorem revert_ok_inv {env : PyEnv} {tr : List Event}
    (h : _revert_checkout env = (tr, Except.ok ())) :
    ∃ p, lookupc env.osEnviron "D2G_PATH" = some p ∧
      tr = [Event.run [osPathJoin p "scripts/revert_checkout.sh"] none none] := by
  cases hl : lookupc env.osEnviron "D2G_PATH" with
  | none =>
    unfold _revert_checkout at h
    rw [pyGetItem_none hl] at h
    simp at h
  | some p =>
    rw [revert_eq env p hl] at h
    exact ⟨p, rfl, (congrArg Prod.fst h).symm⟩

theorem main_loop_cons (env : PyEnv) (conf : Config) (t : String) (rest : List String) :
    _main_loop env conf (t :: rest) =
      M.bind (_evaluate_task env t conf) fun _ => _main_loop env conf rest := rfl

theorem main_loop_ok_inv (env : PyEnv) (conf : Config) :
    ∀ (l : List String) (tr : List Event),
      _main_loop env conf l = (tr, Except.ok ()) →
      tr = l.flatMap (fun t => (_evaluate_task env t conf).1) ∧
        ∀ t ∈ l, (_evaluate_task env t conf).2 = Except.ok () := by
  intro l
  induction l with
  | nil =>
    intro tr h
    simp only [_main_loop, M.pure_def, Prod.mk.injEq] at h
    simp [h.1.symm]
  | cons t rest ih =>
    intro tr h
    rw [main_loop_cons] at h
    rcases hev : _evaluate_task env t conf with ⟨trE, rE⟩
    rw [hev] at h
    cases rE with
    | error e => simp at h
    | ok a =>
      rcases hrest : _main_loop env conf rest with ⟨trR, rR⟩
      simp [hrest] at h
      obtain ⟨h1, h2⟩ := h
      obtain ⟨h3, h4⟩ := ih trR (by rw [hrest, h2])
      refine ⟨?_, ?_⟩
      · rw [List.flatMap_cons, hev]
        rw [h1.symm, h3]
      · intro t1 hmem
        rcases List.mem_cons.mp hmem with he | hm
        · rw [he, hev]
        · exact h4 t1 hm

theorem evaluate_task_ok_inv {env : PyEnv} {t : String} {conf : Config} {tr : List Event}
    (h : _evaluate_task env t conf = (tr, Except.ok ())) :
    ∃ tc repo metrics trOv trMet trEv,
      env.loadYaml (osPathJoin t "task.yml") (some (pyUpper t)) = LoadResult.ok tc ∧
      lookupc conf "ASSIGNMENT_TEMPLATE_REPOSITORY" = some repo ∧
      lookupc tc (pyUpper t ++ "_METRICS") = some metrics ∧
      _override_repo env (some t) repo (some tc) = (trOv, Except.ok ()) ∧
      _execute_metrics env t metrics = (trMet, Except.ok ()) ∧
      _evaluate_metrics env t metrics tc conf = (trEv, Except.ok ()) ∧
      tr = Event.print ("Loading task configuration for task " ++ t) ::
        (trOv ++ trMet ++ trEv) := by
  unfold _evaluate_task at h
  simp only [M.bind_def] at h
  obtain ⟨tL, tc, tRest1, hLoad, h1, hTr1⟩ := M.bind_ok_inv h
  obtain ⟨tG1, repo, tRest2, hRepo, h2, hTr2⟩ := M.bind_ok_inv h1
  obtain ⟨tOv, u1, tRest3, hOv, h3, hTr3⟩ := M.bind_ok_inv h2
  obtain ⟨tG2, metrics, tRest4, hMet, h4, hTr4⟩ := M.bind_ok_inv h3
  obtain ⟨tEx, u2, tRest5, hEx, h5, hTr5⟩ := M.bind_ok_inv h4
  obtain ⟨tG3, metrics2, tRest6, hMet2, h6, hTr6⟩ := M.bind_ok_inv h5
  obtain ⟨hLoadY, hTL⟩ := load_task_ok_inv hLoad
  obtain ⟨hRepoL, hTG1⟩ := pyGetItem_ok_inv hRepo
  obtain ⟨hMetL, hTG2⟩ := pyGetItem_ok_inv hMet
  obtain ⟨hMet2L, hTG3⟩ := pyGetItem_ok_inv hMet2
  have hms : metrics2 = metrics := Option.some.inj (hMet2L.symm.trans hMetL)
  rw [hms] at h6
  refine ⟨tc, repo, metrics, tOv, tEx, tRest6, hLoadY, hRepoL, hMetL, hOv, hEx, h6, ?_⟩
  rw [hTr1, hTr2, hTr3, hTr4, hTr5, hTr6, hTL, hTG1, hTG2, hTG3]
  simp

theorem run_ok_struct {env : PyEnv} {T : List Event}
    (h : runD2G env = (T, Except.ok ())) :
    ∃ conf due repo tasks p trLoop,
      env.loadYaml "assignment.yml" none = LoadResult.ok conf ∧
      lookupc conf "ASSIGNMENT_DUE_DATE" = some due ∧
      lookupc conf "ASSIGNMENT_TEMPLATE_REPOSITORY" = some repo ∧
      lookupc conf "ASSIGNMENT_TASKS" = some tasks ∧
      lookupc env.osEnviron "D2G_PATH" = some p ∧
      env.runResult [osPathJoin p "scripts/checkout_due_date.sh", due] none none = 0 ∧
      env.runResult [osPathJoin p "scripts/override_repo.py", "-a", "-r", repo]
        none none = 0 ∧
      _main_loop env conf (pySplitSpace tasks) = (trLoop, Except.ok ()) ∧
      env.runResult [osPathJoin p "scripts/create_artifact.sh"] none
        (some (pyDictUpdate env.osEnviron conf)) = 0 ∧
      env.runResult [osPathJoin p "scripts/print_results_student.py"] none
        (some (pyDictUpdate env.osEnviron conf)) = 0 ∧
      T = [Event.print "Loading assignment configuration",
           Event.print "Checking out due date",
           Event.run [osPathJoin p "scripts/checkout_due_date.sh", due] none none,
           Event.print "Overriding repository for task None",
           Event.run [osPathJoin p "scripts/override_repo.py", "-a", "-r", repo]
             none none] ++
          trLoop ++
          [Event.print "Creating artifact",
           Event.run [osPathJoin p "scripts/create_artifact.sh"] none
             (some (pyDictUpdate env.osEnviron conf)),
           Event.run [osPathJoin p "scripts/print_results_student.py"] none
             (some (pyDictUpdate env.osEnviron conf))] ++
          [Event.run [osPathJoin p "scripts/revert_checkout.sh"] none none] := by
  unfold runD2G _main at h
  simp only [M.bind_def] at h
  obtain ⟨tL, conf, tRest1, hLoad, h1, hTr1⟩ := M.bind_ok_inv h
  obtain ⟨tG1, due, tRest2, hDue, h2, hTr2⟩ := M.bind_ok_inv h1
  obtain ⟨tCk, u1, tRest3, hCk, h3, hTr3⟩ := M.bind_ok_inv h2
  obtain ⟨tG2, repo, tRest4, hRepo, h4, hTr4⟩ := M.bind_ok_inv h3
  obtain ⟨tOv, u2, tRest5, hOv, h5, hTr5⟩ := M.bind_ok_inv h4
  obtain ⟨tG3, tasks, tRest6, hTasks, h6, hTr6⟩ := M.bind_ok_inv h5
  obtain ⟨tLoop, u3, tRest7, hLoop, h7, hTr7⟩ := M.bind_ok_inv h6
  obtain ⟨tPr, u4, tRest8, hPr, h8, hTr8⟩ := M.bind_ok_inv h7
  obtain ⟨hLoadY, hTL⟩ := load_assignment_ok_inv hLoad
  obtain ⟨hDueL, hTG1⟩ := pyGetItem_ok_inv hDue
  obtain ⟨p, hP, hCkRc, hTCk⟩ := checkout_ok_inv hCk
  obtain ⟨hRepoL, hTG2⟩ := pyGetItem_ok_inv hRepo
  obtain ⟨p2, hP2, hOvRc, hTOv⟩ := override_none_ok_inv hOv
  obtain ⟨hTasksL, hTG3⟩ := pyGetItem_ok_inv hTasks
  obtain ⟨p3, hP3, hCaRc, hPrRc, hTPr⟩ := present_results_ok_inv hPr
  obtain ⟨p4, hP4, hTRv⟩ := revert_ok_inv h8
  have e2 : p2 = p := Option.some.inj (hP2.symm.trans hP)
  have e3 : p3 = p := Option.some.inj (hP3.symm.trans hP)
  have e4 : p4 = p := Option.some.inj (hP4.symm.trans hP)
  rw [e2] at hOvRc hTOv
  rw [e3] at hCaRc hPrRc hTPr
  rw [e4] at hTRv
  refine ⟨conf, due, repo, tasks, p, tLoop, hLoadY, hDueL, hRepoL, hTasksL, hP,
    hCkRc, hOvRc, hLoop, hCaRc, hPrRc, ?_⟩
  rw [hTr1, hTr2, hTr3, hTr4, hTr5, hTr6, hTr7, hTr8,
    hTL, hTG1, hTCk, hTG2, hTOv, hTG3, hTPr, hTRv]
  simp

theorem lookupc_append (a b : Config) (k : String) :
    lookupc (a ++ b) k = (lookupc a k <|> lookupc b k) := by
  induction a with
  | nil => simp [lookupc]
  | cons q rest ih =>
    rcases q with ⟨k1, v1⟩
    by_cases hk : k1 = k
    · simp [lookupc, hk]
    · simp [lookupc, hk, ih]

/-- Lookup in the dict built by `dict(base, **kw1, **kw2)` (when it does
not raise): `kw2` beats `kw1` beats `base`. -/
theorem lookupc_pyKwargs (base kw1 kw2 : Config) (k : String) :
    lookupc (pyDictUpdate (pyDictUpdate base kw1) kw2) k =
      (lookupc kw2 k <|> (lookupc kw1 k <|> lookupc base k)) := by
  unfold pyDictUpdate
  rw [lookupc_append, lookupc_append]

theorem lookupc_pyDictUpdate (base upd : Config) (k : String) :
    lookupc (pyDictUpdate base upd) k = (lookupc upd k <|> lookupc base k) := by
  unfold pyDictUpdate
  rw [lookupc_append]

/-- A demonstration assignment configuration with two tasks. -/
def demoAssignmentConf : Config :=
  [("ASSIGNMENT_DUE_DATE", "2024-01-01"),
   ("ASSIGNMENT_TEMPLATE_REPOSITORY", "https://example.com/tmpl.git"),
   ("ASSIGNMENT_TASKS", "task1 task2")]

/-- An oracle on which every external step succeeds: the configs load,
`task1` resolves one shell-script metric and one python-script metric,
`task2` falls back to gradle, and every subprocess exits 0. -/
def happyEnv : PyEnv where
  loadYaml := fun path pre =>
    if path = "assignment.yml" ∧ pre = none then LoadResult.ok demoAssignmentConf
    else if path = "task1/task.yml" ∧ pre = some "TASK1" then
      LoadResult.ok [("TASK1_METRICS", "checkstyle tests")]
    else if path = "task2/task.yml" ∧ pre = some "TASK2" then
      LoadResult.ok [("TASK2_METRICS", "compile")]
    else LoadResult.notFound
  runResult := fun _ _ _ => 0
  fileExists := fun q =>
    q == "/d2g/scripts/metrics/checkstyle.sh" || q == "/d2g/scripts/metrics/tests.py"
  osEnviron := [("D2G_PATH", "/d2g")]

/-- Same configs as `happyEnv`, but every subprocess exits 1. -/
def failEnv : PyEnv where
  loadYaml := happyEnv.loadYaml
  runResult := fun _ _ _ => 1
  fileExists := fun _ => false
  osEnviron := [("D2G_PATH", "/d2g")]

/-- Same configs as `happyEnv`, but the result-printing subprocess
exits 1 while every other subprocess exits 0. -/
def printFailEnv : PyEnv where
  loadYaml := happyEnv.loadYaml
  runResult := fun cmd _ _ =>
    if cmd = ["/d2g/scripts/print_results_student.py"] then 1 else 0
  fileExists := fun _ => false
  osEnviron := [("D2G_PATH", "/d2g")]

/-- An oracle whose assignment config has an empty `ASSIGNMENT_TASKS`
and whose (root-level) task config has an empty `_METRICS` list. -/
def c9Env : PyEnv where
  loadYaml := fun path pre =>
    if path = "assignment.yml" ∧ pre = none then
      LoadResult.ok [("ASSIGNMENT_DUE_DATE", "2024-01-01"),
                     ("ASSIGNMENT_TEMPLATE_REPOSITORY", "https://example.com/tmpl.git"),
                     ("ASSIGNMENT_TASKS", "")]
    else if path = "task.yml" ∧ pre = some "" then LoadResult.ok [("_METRICS", "")]
    else LoadResult.notFound
  runResult := fun _ _ _ => 0
  fileExists := fun _ => false
  osEnviron := [("D2G_PATH", "/d2g")]

/-- An oracle on which every YAML load reports `FileNotFoundError`. -/
def notFoundEnv : PyEnv where
  loadYaml := fun _ _ => LoadResult.notFound
  runResult := fun _ _ _ => 0
  fileExists := fun _ => false
  osEnviron := [("D2G_PATH", "/d2g")]

/-- An oracle on which every YAML load reports a `yaml.YAMLError`. -/
def parseErrorEnv : PyEnv where
  loadYaml := fun _ _ => LoadResult.parseError
  runResult := fun _ _ _ => 0
  fileExists := fun _ => false
  osEnviron := [("D2G_PATH", "/d2g")]

/-- An oracle whose assignment config lacks `ASSIGNMENT_DUE_DATE`. -/
def noDueEnv : PyEnv where
  loadYaml := fun path pre =>
    if path = "assignment.yml" ∧ pre = none then
      LoadResult.ok [("ASSIGNMENT_TEMPLATE_REPOSITORY", "https://example.com/tmpl.git")]
    else LoadResult.notFound
  runResult := fun _ _ _ => 0
  fileExists := fun _ => false
  osEnviron := [("D2G_PATH", "/d2g")]

/-- An oracle whose assignment config lacks
`ASSIGNMENT_TEMPLATE_REPOSITORY`. -/
def noTemplEnv : PyEnv where
  loadYaml := fun path pre =>
    if path = "assignment.yml" ∧ pre = none then
      LoadResult.ok [("ASSIGNMENT_DUE_DATE", "2024-01-01")]
    else LoadResult.notFound
  runResult := fun _ _ _ => 0
  fileExists := fun _ => false
  osEnviron := [("D2G_PATH", "/d2g")]

/-- An oracle whose assignment config lacks `ASSIGNMENT_TASKS`. -/
def noTasksEnv : PyEnv where
  loadYaml := fun path pre =>
    if path = "assignment.yml" ∧ pre = none then
      LoadResult.ok [("ASSIGNMENT_DUE_DATE", "2024-01-01"),
                     ("ASSIGNMENT_TEMPLATE_REPOSITORY", "https://example.com/tmpl.git")]
    else LoadResult.notFound
  runResult := fun _ _ _ => 0
  fileExists := fun _ => false
  osEnviron := [("D2G_PATH", "/d2g")]

/-- An oracle whose `task1/task.yml` loads an empty mapping, lacking
the required `TASK1_METRICS` key. -/
def noMetricsEnv : PyEnv where
  loadYaml := fun path pre =>
    if path = "assignment.yml" ∧ pre = none then LoadResult.ok demoAssignmentConf
    else if path = "task1/task.yml" ∧ pre = some "TASK1" then LoadResult.ok []
    else LoadResult.notFound
  runResult := fun _ _ _ => 0
  fileExists := fun _ => false
  osEnviron := [("D2G_PATH", "/d2g")]

/-- A task configuration sharing the key `SHARED_KEY` with
`dupAssignmentConf`. -/
def dupTaskConf : Config := [("SHARED_KEY", "from task")]

/-- An assignment configuration sharing the key `SHARED_KEY` with
`dupTaskConf`. -/
def dupAssignmentConf : Config := [("SHARED_KEY", "from assignment")]

/-- C1, counterexample: the final checkout-revert is NOT attempted on
every run.  On the oracle `failEnv` the checkout step returns a nonzero
code, the orchestrator prints the error and usage messages and calls
`exit(-1)`, and the whole trace of the run contains no invocation of
`revert_checkout.sh`. -/
theorem revert_skipped_when_checkout_fails :
    runD2G failEnv =
      ([Event.print "Loading assignment configuration",
        Event.print "Checking out due date",
        Event.run ["/d2g/scripts/checkout_due_date.sh", "2024-01-01"] none none,
        Event.print "Failed to evaluate checkout commit",
        Event.print "usage: deploy_to_grading.py",
        Event.print "       Executes the Deploy-to-Grading pipeline. Make sure to",
        Event.print "       execute the script inside an assignment folder and",
        Event.print "       that the D2G_PATH env variable is set."],
       Except.error Abort.errorExit) ∧
    Event.run ["/d2g/scripts/revert_checkout.sh"] none none ∉ (runD2G failEnv).1 ∧
    processExitCode (runD2G failEnv).2 ≠ 0 :=
  ⟨by decide, by decide, by decide⟩

/-- C1 (amended): on every run that completes all earlier steps without
aborting, the final checkout-revert is attempted (the trace ends with
the `revert_checkout.sh` invocation), and the revert step ignores the
subprocess result: whatever return code the oracle supplies, the step
finishes normally. -/
theorem revert_attempted_on_success_and_result_ignored :
    (∀ (env : PyEnv) (T : List Event), runD2G env = (T, Except.ok ()) →
      ∃ t0 p, lookupc env.osEnviron "D2G_PATH" = some p ∧
        T = t0 ++ [Event.run [osPathJoin p "scripts/revert_checkout.sh"] none none]) ∧
    (∀ (env : PyEnv) (p : String), lookupc env.osEnviron "D2G_PATH" = some p →
      _revert_checkout env =
        ([Event.run [osPathJoin p "scripts/revert_checkout.sh"] none none],
         Except.ok ())) := by
  constructor
  · intro env T h
    obtain ⟨conf, due, repo, tasks, p, trLoop, _, _, _, _, hP, _, _, _, _, _, hT⟩ :=
      run_ok_struct h
    refine ⟨[Event.print "Loading assignment configuration",
             Event.print "Checking out due date",
             Event.run [osPathJoin p "scripts/checkout_due_date.sh", due] none none,
             Event.print "Overriding repository for task None",
             Event.run [osPathJoin p "scripts/override_repo.py", "-a", "-r", repo]
               none none] ++
            trLoop ++
            [Event.print "Creating artifact",
             Event.run [osPathJoin p "scripts/create_artifact.sh"] none
               (some (pyDictUpdate env.osEnviron conf)),
             Event.run [osPathJoin p "scripts/print_results_student.py"] none
               (some (pyDictUpdate env.osEnviron conf))], p, hP, ?_⟩
    rw [hT]
  · intro env p hp
    exact revert_eq env p hp

/-- Witness for the amended C1 theorem at the all-success oracle. -/
theorem revert_attempted_on_success_and_result_ignored_witness :
    (∃ t0 p, lookupc happyEnv.osEnviron "D2G_PATH" = some p ∧
      (runD2G happyEnv).1 =
        t0 ++ [Event.run [osPathJoin p "scripts/revert_checkout.sh"] none none]) ∧
    _revert_checkout happyEnv =
      ([Event.run [osPathJoin "/d2g" "scripts/revert_checkout.sh"] none none],
       Except.ok ()) :=
  ⟨revert_attempted_on_success_and_result_ignored.1 happyEnv (runD2G happyEnv).1 (by decide),
   revert_attempted_on_success_and_result_ignored.2 happyEnv "/d2g" (by decide)⟩

/-- C3: metric resolution is decided only by file existence under
`D2G_PATH/scripts/metrics`, preferring `<metric>.sh`, then
`<metric>.py`, then the gradle fallback `["./gradlew", metric]`; two
oracles agreeing on file existence (and on `D2G_PATH`) resolve every
metric identically, so nothing else (in particular no declared metric
type and no cache) plays a role. -/
theorem metric_resolution_by_file_existence (env : PyEnv) (metric p : String)
    (hp : lookupc env.osEnviron "D2G_PATH" = some p) :
    _get_metric_script_path env metric =
      ([], Except.ok (
        if env.fileExists (osPathJoin p ("scripts/metrics/" ++ metric) ++ ".sh") then
          [osPathJoin p ("scripts/metrics/" ++ metric) ++ ".sh"]
        else if env.fileExists (osPathJoin p ("scripts/metrics/" ++ metric) ++ ".py") then
          [osPathJoin p ("scripts/metrics/" ++ metric) ++ ".py"]
        else ["./gradlew", metric])) ∧
    (∀ env2 : PyEnv, env2.fileExists = env.fileExists →
      lookupc env2.osEnviron "D2G_PATH" = some p →
      _get_metric_script_path env2 metric = _get_metric_script_path env metric) := by
  constructor
  · rw [get_metric_eq env metric p hp]
    rfl
  · intro env2 hfe hp2
    rw [get_metric_eq env2 metric p hp2, get_metric_eq env metric p hp]
    unfold metricCmd
    rw [hfe]

/-- Witness for C3: on `happyEnv`, `checkstyle` resolves to the shell
script, `tests` to the python script and `compile` to the gradle
fallback. -/
theorem metric_resolution_by_file_existence_witness :
    _get_metric_script_path happyEnv "checkstyle" =
      ([], Except.ok ["/d2g/scripts/metrics/checkstyle.sh"]) ∧
    _get_metric_script_path happyEnv "tests" =
      ([], Except.ok ["/d2g/scripts/metrics/tests.py"]) ∧
    _get_metric_script_path happyEnv "compile" =
      ([], Except.ok ["./gradlew", "compile"]) :=
  ⟨by rw [(metric_resolution_by_file_existence happyEnv "checkstyle" "/d2g" (by decide)).1]; decide,
   by rw [(metric_resolution_by_file_existence happyEnv "tests" "/d2g" (by decide)).1]; decide,
   by rw [(metric_resolution_by_file_existence happyEnv "compile" "/d2g" (by decide)).1]; decide⟩

/-- C4: a not-found or parse-error condition while loading
`assignment.yml` makes the whole run abort immediately with the printed
message, the usage hint and `exit(-1)` -- the complete run trace is just
those prints, so no later pipeline step executes; the same holds for a
task's `task.yml` inside the per-task step. -/
theorem config_load_failure_aborts :
    (∀ env : PyEnv, env.loadYaml "assignment.yml" none = LoadResult.notFound →
      runD2G env = (Event.print "Loading assignment configuration" ::
        errorEvents "Failed to load assignment.yml", Except.error Abort.errorExit)) ∧
    (∀ env : PyEnv, env.loadYaml "assignment.yml" none = LoadResult.parseError →
      runD2G env = (Event.print "Loading assignment configuration" ::
        errorEvents "Failed to load assignment.yml", Except.error Abort.errorExit)) ∧
    (∀ (env : PyEnv) (t : String) (conf : Config),
      env.loadYaml (osPathJoin t "task.yml") (some (pyUpper t)) = LoadResult.notFound →
      _evaluate_task env t conf =
        (Event.print ("Loading task configuration for task " ++ t) ::
          errorEvents ("Failed to load " ++ osPathJoin t "task.yml"),
         Except.error Abort.errorExit)) ∧
    (∀ (env : PyEnv) (t : String) (conf : Config),
      env.loadYaml (osPathJoin t "task.yml") (some (pyUpper t)) = LoadResult.parseError →
      _evaluate_task env t conf =
        (Event.print ("Loading task configuration for task " ++ t) ::
          errorEvents ("Failed to load " ++ osPathJoin t "task.yml"),
         Except.error Abort.errorExit)) ∧
    processExitCode (Except.error Abort.errorExit : Except Abort Unit) ≠ 0 := by
  refine ⟨?_, ?_, ?_, ?_, by decide⟩
  · intro env h
    unfold runD2G _main
    simp only [M.bind_def]
    rw [load_assignment_eq env, h]
    simp
  · intro env h
    unfold runD2G _main
    simp only [M.bind_def]
    rw [load_assignment_eq env, h]
    simp
  · intro env t conf h
    unfold _evaluate_task
    simp only [M.bind_def]
    rw [load_task_eq env t, h]
    simp
  · intro env t conf h
    unfold _evaluate_task
    simp only [M.bind_def]
    rw [load_task_eq env t, h]
    simp

/-- Witness for C4 at oracles whose loads fail. -/
theorem config_load_failure_aborts_witness :
    runD2G notFoundEnv = (Event.print "Loading assignment configuration" ::
      errorEvents "Failed to load assignment.yml", Except.error Abort.errorExit) ∧
    runD2G parseErrorEnv = (Event.print "Loading assignment configuration" ::
      errorEvents "Failed to load assignment.yml", Except.error Abort.errorExit) ∧
    _evaluate_task notFoundEnv "task1" [] =
      (Event.print "Loading task configuration for task task1" ::
        errorEvents ("Failed to load " ++ osPathJoin "task1" "task.yml"),
       Except.error Abort.errorExit) ∧
    _evaluate_task parseErrorEnv "task1" [] =
      (Event.print "Loading task configuration for task task1" ::
        errorEvents ("Failed to load " ++ osPathJoin "task1" "task.yml"),
       Except.error Abort.errorExit) :=
  ⟨config_load_failure_aborts.1 notFoundEnv rfl,
   config_load_failure_aborts.2.1 parseErrorEnv rfl,
   config_load_failure_aborts.2.2.1 notFoundEnv "task1" [] rfl,
   config_load_failure_aborts.2.2.2.1 parseErrorEnv "task1" [] rfl⟩

/-- C8, counterexample: when the task configuration and the assignment
configuration share a key, the metric-evaluation step does NOT give the
assignment value precedence -- the call
`dict(os.environ, **task_configuration, **assignment_configuration)`
itself raises an uncaught `TypeError` (duplicate keyword argument), the
subprocess is never invoked, and the interpreter dies with status 1. -/
theorem shared_key_raises_type_error :
    _evaluate_metrics happyEnv "task1" "checkstyle tests" dupTaskConf dupAssignmentConf =
      ([Event.print "Evaluating metrics for task task1"],
       Except.error (Abort.typeError "SHARED_KEY")) ∧
    processExitCode
      (_evaluate_metrics happyEnv "task1" "checkstyle tests"
        dupTaskConf dupAssignmentConf).2 = 1 :=
  ⟨by decide, by decide⟩

/-- C8 (amended): the metric-evaluation subprocess environment is the
process environment updated with the task configuration and then the
assignment configuration, and -- provided the two configurations share
no key, otherwise the call raises `TypeError` -- lookup precedence in
the passed environment is assignment over task over inherited process
environment. -/
theorem merged_env_precedence_when_disjoint (env : PyEnv) (t m p : String)
    (tc ac : Config) (hp : lookupc env.osEnviron "D2G_PATH" = some p)
    (hd : firstDupKey tc ac = none) :
    Event.run [osPathJoin p "scripts/evaluate_task.py", t] (some t)
        (some (pyDictUpdate (pyDictUpdate env.osEnviron tc) ac)) ∈
      (_evaluate_metrics env t m tc ac).1 ∧
    (∀ k, lookupc (pyDictUpdate (pyDictUpdate env.osEnviron tc) ac) k =
      (lookupc ac k <|> (lookupc tc k <|> lookupc env.osEnviron k))) := by
  constructor
  · rw [evaluate_metrics_eq env t m p tc ac hp hd]
    by_cases h0 : env.runResult [osPathJoin p "scripts/evaluate_task.py", t] (some t)
        (some (pyDictUpdate (pyDictUpdate env.osEnviron tc) ac)) = 0
    · rw [if_neg (by simpa using h0)]
      simp
    · rw [if_pos (by simpa using h0)]
      simp
  · intro k
    exact lookupc_pyKwargs env.osEnviron tc ac k

/-- Witness for the amended C8 theorem with disjoint configurations. -/
theorem merged_env_precedence_when_disjoint_witness :
    Event.run [osPathJoin "/d2g" "scripts/evaluate_task.py", "task1"] (some "task1")
        (some (pyDictUpdate (pyDictUpdate happyEnv.osEnviron
          [("TASK1_METRICS", "checkstyle tests")]) demoAssignmentConf)) ∈
      (_evaluate_metrics happyEnv "task1" "checkstyle tests"
        [("TASK1_METRICS", "checkstyle tests")] demoAssignmentConf).1 ∧
    (∀ k, lookupc (pyDictUpdate (pyDictUpdate happyEnv.osEnviron
        [("TASK1_METRICS", "checkstyle tests")]) demoAssignmentConf) k =
      (lookupc demoAssignmentConf k <|>
        (lookupc [("TASK1_METRICS", "checkstyle tests")] k <|>
          lookupc happyEnv.osEnviron k))) :=
  merged_env_precedence_when_disjoint happyEnv "task1" "checkstyle tests" "/d2g"
    [("TASK1_METRICS", "checkstyle tests")] demoAssignmentConf (by decide) (by decide)

/-- C9: with `ASSIGNMENT_TASKS = ""` the split yields `[""]`, so the
orchestrator runs one full per-task evaluation for the task named `""`
(visible in the trace: its task-config load, its override -- which takes
the `-a` branch because `""` is falsy -- and, with `_METRICS = ""`, one
metric execution for the metric named `""`), instead of skipping the
loop. -/
theorem empty_task_list_yields_empty_task :
    runD2G c9Env =
      ([Event.print "Loading assignment configuration",
        Event.print "Checking out due date",
        Event.run ["/d2g/scripts/checkout_due_date.sh", "2024-01-01"] none none,
        Event.print "Overriding repository for task None",
        Event.run ["/d2g/scripts/override_repo.py", "-a", "-r",
          "https://example.com/tmpl.git"] none none,
        Event.print "Loading task configuration for task ",
        Event.print "Overriding repository for task ",
        Event.run ["/d2g/scripts/override_repo.py", "-a", "-r",
          "https://example.com/tmpl.git"] none none,
        Event.print "Executing metric  for task ",
        Event.run ["./gradlew", ""] (some "") none,
        Event.print "Evaluating metrics for task ",
        Event.run ["/d2g/scripts/evaluate_task.py", ""] (some "")
          (some [("ASSIGNMENT_DUE_DATE", "2024-01-01"),
                 ("ASSIGNMENT_TEMPLATE_REPOSITORY", "https://example.com/tmpl.git"),
                 ("ASSIGNMENT_TASKS", ""),
                 ("_METRICS", ""),
                 ("D2G_PATH", "/d2g")]),
        Event.print "Creating artifact",
        Event.run ["/d2g/scripts/create_artifact.sh"] none
          (some [("ASSIGNMENT_DUE_DATE", "2024-01-01"),
                 ("ASSIGNMENT_TEMPLATE_REPOSITORY", "https://example.com/tmpl.git"),
                 ("ASSIGNMENT_TASKS", ""),
                 ("D2G_PATH", "/d2g")]),
        Event.run ["/d2g/scripts/print_results_student.py"] none
          (some [("ASSIGNMENT_DUE_DATE", "2024-01-01"),
                 ("ASSIGNMENT_TEMPLATE_REPOSITORY", "https://example.com/tmpl.git"),
                 ("ASSIGNMENT_TASKS", ""),
                 ("D2G_PATH", "/d2g")]),
        Event.run ["/d2g/scripts/revert_checkout.sh"] none none],
       Except.ok ()) ∧
    pySplitSpace "" = [""] ∧
    Event.print "Loading task configuration for task " ∈ (runD2G c9Env).1 ∧
    Event.print "Executing metric  for task " ∈ (runD2G c9Env).1 :=
  ⟨by decide, by decide, by decide, by decide⟩

/-- C2: any delegated external step whose subprocess returns a nonzero
code prints its error message followed by the usage reminder and
terminates via `exit(-1)` (whole-step trace equality: nothing runs
after the usage prints); an abort short-circuits every later monadic
step; the abort exit status is nonzero while a fully successful run
exits with status 0. -/
theorem step_failure_aborts_pipeline :
    (∀ (env : PyEnv) (p due : String),
      lookupc env.osEnviron "D2G_PATH" = some p →
      env.runResult [osPathJoin p "scripts/checkout_due_date.sh", due] none none ≠ 0 →
      _checkout_due_date env due =
        ([Event.print "Checking out due date",
          Event.run [osPathJoin p "scripts/checkout_due_date.sh", due] none none] ++
          errorEvents "Failed to evaluate checkout commit", Except.error Abort.errorExit)) ∧
    (∀ (env : PyEnv) (p repo : String),
      lookupc env.osEnviron "D2G_PATH" = some p →
      env.runResult [osPathJoin p "scripts/override_repo.py", "-a", "-r", repo]
        none none ≠ 0 →
      _override_repo env none repo none =
        ([Event.print "Overriding repository for task None",
          Event.run [osPathJoin p "scripts/override_repo.py", "-a", "-r", repo]
            none none] ++
          errorEvents "Failed to execute override_repo.py", Except.error Abort.errorExit)) ∧
    (∀ (env : PyEnv) (p t repo : String) (tc : Option Config),
      lookupc env.osEnviron "D2G_PATH" = some p → t ≠ "" →
      env.runResult [osPathJoin p "scripts/override_repo.py", "-t", t, "-r", repo]
        (some t) tc ≠ 0 →
      _override_repo env (some t) repo tc =
        ([Event.print ("Overriding repository for task " ++ t),
          Event.run [osPathJoin p "scripts/override_repo.py", "-t", t, "-r", repo]
            (some t) tc] ++
          errorEvents "Failed to execute override_repo.py", Except.error Abort.errorExit)) ∧
    (∀ (env : PyEnv) (p t me : String) (rest : List String),
      lookupc env.osEnviron "D2G_PATH" = some p →
      env.runResult (metricCmd env p me) (some t) none ≠ 0 →
      _execute_metrics_loop env t (me :: rest) =
        (metricSegment env p t me ++ errorEvents ("Failed to execute metric " ++ me),
         Except.error Abort.errorExit)) ∧
    (∀ (env : PyEnv) (p t me : String) (tc ac : Config),
      lookupc env.osEnviron "D2G_PATH" = some p →
      firstDupKey tc ac = none →
      env.runResult [osPathJoin p "scripts/evaluate_task.py", t] (some t)
        (some (pyDictUpdate (pyDictUpdate env.osEnviron tc) ac)) ≠ 0 →
      _evaluate_metrics env t me tc ac =
        ([Event.print ("Evaluating metrics for task " ++ t),
          Event.run [osPathJoin p "scripts/evaluate_task.py", t] (some t)
            (some (pyDictUpdate (pyDictUpdate env.osEnviron tc) ac))] ++
          errorEvents "Failed to execute evaluate_task.py", Except.error Abort.errorExit)) ∧
    (∀ (env : PyEnv) (p : String) (conf : Config),
      lookupc env.osEnviron "D2G_PATH" = some p →
      env.runResult [osPathJoin p "scripts/create_artifact.sh"] none
        (some (pyDictUpdate env.osEnviron conf)) ≠ 0 →
      _present_results env conf =
        ([Event.print "Creating artifact",
          Event.run [osPathJoin p "scripts/create_artifact.sh"] none
            (some (pyDictUpdate env.osEnviron conf))] ++
          errorEvents "Failed to execute create_artifact.sh", Except.error Abort.errorExit)) ∧
    (∀ (env : PyEnv) (p : String) (conf : Config),
      lookupc env.osEnviron "D2G_PATH" = some p →
      env.runResult [osPathJoin p "scripts/create_artifact.sh"] none
        (some (pyDictUpdate env.osEnviron conf)) = 0 →
      env.runResult [osPathJoin p "scripts/print_results_student.py"] none
        (some (pyDictUpdate env.osEnviron conf)) ≠ 0 →
      _present_results env conf =
        ([Event.print "Creating artifact",
          Event.run [osPathJoin p "scripts/create_artifact.sh"] none
            (some (pyDictUpdate env.osEnviron conf)),
          Event.run [osPathJoin p "scripts/print_results_student.py"] none
            (some (pyDictUpdate env.osEnviron conf))] ++
          errorEvents "Failed to print student results", Except.error Abort.errorExit)) ∧
    (∀ (α β : Type) (trE : List Event) (e : Abort) (f : α → M β),
      M.bind (trE, Except.error e) f = ((trE, Except.error e) : M β)) ∧
    processExitCode (Except.error Abort.errorExit : Except Abort Unit) ≠ 0 ∧
    (∀ (env : PyEnv) (T : List Event), runD2G env = (T, Except.ok ()) →
      processExitCode (runD2G env).2 = 0) ∧
    (runD2G happyEnv).2 = Except.ok () ∧
    processExitCode (runD2G happyEnv).2 = 0 := by
  refine ⟨?_, ?_, ?_, ?_, ?_, ?_, ?_,
    fun α β trE e f => M.bind_pair_error trE e f, by decide, ?_, by decide, by decide⟩
  · intro env p due hp h0
    rw [checkout_eq env due p hp, if_pos h0]
  · intro env p repo hp h0
    rw [override_none_eq env repo p hp, if_pos h0]
  · intro env p t repo tc hp ht h0
    rw [override_some_eq env t repo p tc hp ht, if_pos h0]
  · intro env p t me rest hp h0
    simp only [_execute_metrics_loop]
    rw [get_metric_eq env me p hp]
    simp [runProc, h0, print_error_and_exit_eq, metricSegment, errorEvents, usageEvents]
  · intro env p t me tc ac hp hd h0
    rw [evaluate_metrics_eq env t me p tc ac hp hd, if_pos h0]
  · intro env p conf hp h0
    rw [present_results_eq env p conf hp, if_pos h0]
  · intro env p conf hp h1 h2
    rw [present_results_eq env p conf hp, if_neg (by simpa using h1), if_pos h2]
  · intro env T h
    rw [h]
    rfl

/-- Witness for C2: each fail-fast conjunct applied at a concrete
failing oracle, and the all-success run exiting 0. -/
theorem step_failure_aborts_pipeline_witness :
    _checkout_due_date failEnv "2024-01-01" =
      ([Event.print "Checking out due date",
        Event.run [osPathJoin "/d2g" "scripts/checkout_due_date.sh", "2024-01-01"]
          none none] ++
        errorEvents "Failed to evaluate checkout commit", Except.error Abort.errorExit) ∧
    _override_repo failEnv none "https://example.com/tmpl.git" none =
      ([Event.print "Overriding repository for task None",
        Event.run [osPathJoin "/d2g" "scripts/override_repo.py", "-a", "-r",
          "https://example.com/tmpl.git"] none none] ++
        errorEvents "Failed to execute override_repo.py", Except.error Abort.errorExit) ∧
    _override_repo failEnv (some "task1") "https://example.com/tmpl.git" none =
      ([Event.print ("Overriding repository for task " ++ "task1"),
        Event.run [osPathJoin "/d2g" "scripts/override_repo.py", "-t", "task1", "-r",
          "https://example.com/tmpl.git"] (some "task1") none] ++
        errorEvents "Failed to execute override_repo.py", Except.error Abort.errorExit) ∧
    _execute_metrics_loop failEnv "task1" ["checkstyle"] =
      (metricSegment failEnv "/d2g" "task1" "checkstyle" ++
        errorEvents ("Failed to execute metric " ++ "checkstyle"),
       Except.error Abort.errorExit) ∧
    _evaluate_metrics failEnv "task1" "m" [] [] =
      ([Event.print ("Evaluating metrics for task " ++ "task1"),
        Event.run [osPathJoin "/d2g" "scripts/evaluate_task.py", "task1"] (some "task1")
          (some (pyDictUpdate (pyDictUpdate failEnv.osEnviron []) []))] ++
        errorEvents "Failed to execute evaluate_task.py", Except.error Abort.errorExit) ∧
    _present_results failEnv [] =
      ([Event.print "Creating artifact",
        Event.run [osPathJoin "/d2g" "scripts/create_artifact.sh"] none
          (some (pyDictUpdate failEnv.osEnviron []))] ++
        errorEvents "Failed to execute create_artifact.sh", Except.error Abort.errorExit) ∧
    _present_results printFailEnv [] =
      ([Event.print "Creating artifact",
        Event.run [osPathJoin "/d2g" "scripts/create_artifact.sh"] none
          (some (pyDictUpdate printFailEnv.osEnviron [])),
        Event.run [osPathJoin "/d2g" "scripts/print_results_student.py"] none
          (some (pyDictUpdate printFailEnv.osEnviron []))] ++
        errorEvents "Failed to print student results", Except.error Abort.errorExit) ∧
    processExitCode (runD2G happyEnv).2 = 0 :=
  ⟨step_failure_aborts_pipeline.1 failEnv "/d2g" "2024-01-01" (by decide) (by decide),
   step_failure_aborts_pipeline.2.1 failEnv "/d2g" "https://example.com/tmpl.git"
     (by decide) (by decide),
   step_failure_aborts_pipeline.2.2.1 failEnv "/d2g" "task1" "https://example.com/tmpl.git"
     none (by decide) (by decide) (by decide),
   step_failure_aborts_pipeline.2.2.2.1 failEnv "/d2g" "task1" "checkstyle" []
     (by decide) (by decide),
   step_failure_aborts_pipeline.2.2.2.2.1 failEnv "/d2g" "task1" "m" [] []
     (by decide) (by decide) (by decide),
   step_failure_aborts_pipeline.2.2.2.2.2.1 failEnv "/d2g" [] (by decide) (by decide),
   step_failure_aborts_pipeline.2.2.2.2.2.2.1 printFailEnv "/d2g" []
     (by decide) (by decide) (by decide),
   step_failure_aborts_pipeline.2.2.2.2.2.2.2.2.2.1 happyEnv (runD2G happyEnv).1
     (by decide)⟩

/-- C5: every successful run has exactly the fixed step order: the
assignment-config load print, the due-date checkout, the
assignment-level repository override, then the per-task loop over
`ASSIGNMENT_TASKS` split on spaces in listed order (the loop trace is
the in-order concatenation of the per-task traces), then artifact
creation followed by result printing, and finally the checkout
revert. -/
theorem successful_run_fixed_step_order (env : PyEnv) (T : List Event)
    (h : runD2G env = (T, Except.ok ())) :
    ∃ conf due repo tasks p trLoop,
      env.loadYaml "assignment.yml" none = LoadResult.ok conf ∧
      lookupc conf "ASSIGNMENT_DUE_DATE" = some due ∧
      lookupc conf "ASSIGNMENT_TEMPLATE_REPOSITORY" = some repo ∧
      lookupc conf "ASSIGNMENT_TASKS" = some tasks ∧
      lookupc env.osEnviron "D2G_PATH" = some p ∧
      T = [Event.print "Loading assignment configuration",
           Event.print "Checking out due date",
           Event.run [osPathJoin p "scripts/checkout_due_date.sh", due] none none,
           Event.print "Overriding repository for task None",
           Event.run [osPathJoin p "scripts/override_repo.py", "-a", "-r", repo]
             none none] ++
          trLoop ++
          [Event.print "Creating artifact",
           Event.run [osPathJoin p "scripts/create_artifact.sh"] none
             (some (pyDictUpdate env.osEnviron conf)),
           Event.run [osPathJoin p "scripts/print_results_student.py"] none
             (some (pyDictUpdate env.osEnviron conf))] ++
          [Event.run [osPathJoin p "scripts/revert_checkout.sh"] none none] ∧
      trLoop = (pySplitSpace tasks).flatMap (fun t => (_evaluate_task env t conf).1) ∧
      ∀ t ∈ pySplitSpace tasks, (_evaluate_task env t conf).2 = Except.ok () := by
  obtain ⟨conf, due, repo, tasks, p, trLoop, hL, hD, hR, hTk, hP, _, _, hLoop, _, _, hT⟩ :=
    run_ok_struct h
  obtain ⟨hF, hAll⟩ := main_loop_ok_inv env conf (pySplitSpace tasks) trLoop hLoop
  exact ⟨conf, due, repo, tasks, p, trLoop, hL, hD, hR, hTk, hP, hT, hF, hAll⟩

/-- Witness for C5 at the all-success oracle. -/
theorem successful_run_fixed_step_order_witness :
    ∃ conf due repo tasks p trLoop,
      happyEnv.loadYaml "assignment.yml" none = LoadResult.ok conf ∧
      lookupc conf "ASSIGNMENT_DUE_DATE" = some due ∧
      lookupc conf "ASSIGNMENT_TEMPLATE_REPOSITORY" = some repo ∧
      lookupc conf "ASSIGNMENT_TASKS" = some tasks ∧
      lookupc happyEnv.osEnviron "D2G_PATH" = some p ∧
      (runD2G happyEnv).1 =
          [Event.print "Loading assignment configuration",
           Event.print "Checking out due date",
           Event.run [osPathJoin p "scripts/checkout_due_date.sh", due] none none,
           Event.print "Overriding repository for task None",
           Event.run [osPathJoin p "scripts/override_repo.py", "-a", "-r", repo]
             none none] ++
          trLoop ++
          [Event.print "Creating artifact",
           Event.run [osPathJoin p "scripts/create_artifact.sh"] none
             (some (pyDictUpdate happyEnv.osEnviron conf)),
           Event.run [osPathJoin p "scripts/print_results_student.py"] none
             (some (pyDictUpdate happyEnv.osEnviron conf))] ++
          [Event.run [osPathJoin p "scripts/revert_checkout.sh"] none none] ∧
      trLoop = (pySplitSpace tasks).flatMap
        (fun t => (_evaluate_task happyEnv t conf).1) ∧
      ∀ t ∈ pySplitSpace tasks, (_evaluate_task happyEnv t conf).2 = Except.ok () :=
  successful_run_fixed_step_order happyEnv (runD2G happyEnv).1 (by decide)

/-- C6: a successful per-task evaluation consists, in order, of the
task-config load, the repository override from the assignment template,
the in-order execution of every metric of the space-split metric list,
and the evaluation step invoked with the merged task+assignment
environment; moreover the loop runs the tasks strictly in sequence and
an abort in one task short-circuits the rest of the run. -/
theorem per_task_step_sequence (env : PyEnv) (t : String) (conf : Config)
    (tr : List Event)
    (h : _evaluate_task env t conf = (tr, Except.ok ())) :
    (∃ tc repo metrics trOv trMet trEv p,
      env.loadYaml (osPathJoin t "task.yml") (some (pyUpper t)) = LoadResult.ok tc ∧
      lookupc conf "ASSIGNMENT_TEMPLATE_REPOSITORY" = some repo ∧
      lookupc tc (pyUpper t ++ "_METRICS") = some metrics ∧
      _override_repo env (some t) repo (some tc) = (trOv, Except.ok ()) ∧
      _execute_metrics env t metrics = (trMet, Except.ok ()) ∧
      _evaluate_metrics env t metrics tc conf = (trEv, Except.ok ()) ∧
      tr = Event.print ("Loading task configuration for task " ++ t) ::
        (trOv ++ trMet ++ trEv) ∧
      lookupc env.osEnviron "D2G_PATH" = some p ∧
      trMet = (pySplitSpace metrics).flatMap (metricSegment env p t) ∧
      (∀ m ∈ pySplitSpace metrics,
        env.runResult (metricCmd env p m) (some t) none = 0) ∧
      firstDupKey tc conf = none ∧
      trEv = [Event.print ("Evaluating metrics for task " ++ t),
              Event.run [osPathJoin p "scripts/evaluate_task.py", t] (some t)
                (some (pyDictUpdate (pyDictUpdate env.osEnviron tc) conf))]) ∧
    (∀ rest : List String, _main_loop env conf (t :: rest) =
      M.bind (_evaluate_task env t conf) fun _ => _main_loop env conf rest) ∧
    (∀ (trE : List Event) (e : Abort) (f : Unit → M Unit),
      M.bind (trE, Except.error e) f = ((trE, Except.error e) : M Unit)) := by
  refine ⟨?_, fun rest => main_loop_cons env conf t rest,
    fun trE e f => M.bind_pair_error trE e f⟩
  obtain ⟨tc, repo, metrics, trOv, trMet, trEv, hLoad, hRepo, hMet, hOv, hEx, hEv, hTr⟩ :=
    evaluate_task_ok_inv h
  obtain ⟨p, hp, hdup, _, hTrEv⟩ := evaluate_metrics_ok_inv hEv
  have hEx2 := hEx
  unfold _execute_metrics at hEx2
  obtain ⟨hF, hAll⟩ := metrics_loop_ok_inv env t p hp (pySplitSpace metrics) trMet hEx2
  exact ⟨tc, repo, metrics, trOv, trMet, trEv, p, hLoad, hRepo, hMet, hOv, hEx, hEv, hTr,
    hp, hF, hAll, hdup, hTrEv⟩

/-- Witness for C6 at the all-success oracle and its first task. -/
theorem per_task_step_sequence_witness :
    (∃ tc repo metrics trOv trMet trEv p,
      happyEnv.loadYaml (osPathJoin "task1" "task.yml") (some (pyUpper "task1")) =
        LoadResult.ok tc ∧
      lookupc demoAssignmentConf "ASSIGNMENT_TEMPLATE_REPOSITORY" = some repo ∧
      lookupc tc (pyUpper "task1" ++ "_METRICS") = some metrics ∧
      _override_repo happyEnv (some "task1") repo (some tc) = (trOv, Except.ok ()) ∧
      _execute_metrics happyEnv "task1" metrics = (trMet, Except.ok ()) ∧
      _evaluate_metrics happyEnv "task1" metrics tc demoAssignmentConf =
        (trEv, Except.ok ()) ∧
      (_evaluate_task happyEnv "task1" demoAssignmentConf).1 =
        Event.print ("Loading task configuration for task " ++ "task1") ::
          (trOv ++ trMet ++ trEv) ∧
      lookupc happyEnv.osEnviron "D2G_PATH" = some p ∧
      trMet = (pySplitSpace metrics).flatMap (metricSegment happyEnv p "task1") ∧
      (∀ m ∈ pySplitSpace metrics,
        happyEnv.runResult (metricCmd happyEnv p m) (some "task1") none = 0) ∧
      firstDupKey tc demoAssignmentConf = none ∧
      trEv = [Event.print ("Evaluating metrics for task " ++ "task1"),
              Event.run [osPathJoin p "scripts/evaluate_task.py", "task1"] (some "task1")
                (some (pyDictUpdate (pyDictUpdate happyEnv.osEnviron tc)
                  demoAssignmentConf))]) ∧
    (∀ rest : List String, _main_loop happyEnv demoAssignmentConf ("task1" :: rest) =
      M.bind (_evaluate_task happyEnv "task1" demoAssignmentConf)
        fun _ => _main_loop happyEnv demoAssignmentConf rest) ∧
    (∀ (trE : List Event) (e : Abort) (f : Unit → M Unit),
      M.bind (trE, Except.error e) f = ((trE, Except.error e) : M Unit)) :=
  per_task_step_sequence happyEnv "task1" demoAssignmentConf
    (_evaluate_task happyEnv "task1" demoAssignmentConf).1 (by decide)

/-- C7: on every successful run the assignment configuration is the
one mapping returned by the single load and is handed unchanged to
every later step: the same `conf` value drives the task loop (each
iteration receives it as-is) and appears, merged over `os.environ`,
in the environments passed to the artifact-creation and
result-printing subprocesses.  The orchestrator holds no other state
between steps: each step is a pure function of the oracle and its
arguments. -/
theorem configs_loaded_once_never_mutated (env : PyEnv) (T : List Event)
    (h : runD2G env = (T, Except.ok ())) :
    ∃ conf p tasks,
      env.loadYaml "assignment.yml" none = LoadResult.ok conf ∧
      lookupc env.osEnviron "D2G_PATH" = some p ∧
      lookupc conf "ASSIGNMENT_TASKS" = some tasks ∧
      (∀ (t : String) (rest : List String), _main_loop env conf (t :: rest) =
        M.bind (_evaluate_task env t conf) fun _ => _main_loop env conf rest) ∧
      (_main_loop env conf (pySplitSpace tasks)).2 = Except.ok () ∧
      (∀ t ∈ pySplitSpace tasks, (_evaluate_task env t conf).2 = Except.ok ()) ∧
      Event.run [osPathJoin p "scripts/create_artifact.sh"] none
        (some (pyDictUpdate env.osEnviron conf)) ∈ T ∧
      Event.run [osPathJoin p "scripts/print_results_student.py"] none
        (some (pyDictUpdate env.osEnviron conf)) ∈ T := by
  obtain ⟨conf, due, repo, tasks, p, trLoop, hL, _, _, hTk, hP, _, _, hLoop, _, _, hT⟩ :=
    run_ok_struct h
  obtain ⟨hF, hAll⟩ := main_loop_ok_inv env conf (pySplitSpace tasks) trLoop hLoop
  refine ⟨conf, p, tasks, hL, hP, hTk,
    fun t rest => main_loop_cons env conf t rest, ?_, hAll, ?_, ?_⟩
  · rw [hLoop]
  · rw [hT]
    simp
  · rw [hT]
    simp

/-- Witness for C7 at the all-success oracle. -/
theorem configs_loaded_once_never_mutated_witness :
    ∃ conf p tasks,
      happyEnv.loadYaml "assignment.yml" none = LoadResult.ok conf ∧
      lookupc happyEnv.osEnviron "D2G_PATH" = some p ∧
      lookupc conf "ASSIGNMENT_TASKS" = some tasks ∧
      (∀ (t : String) (rest : List String),
        _main_loop happyEnv conf (t :: rest) =
          M.bind (_evaluate_task happyEnv t conf)
            fun _ => _main_loop happyEnv conf rest) ∧
      (_main_loop happyEnv conf (pySplitSpace tasks)).2 = Except.ok () ∧
      (∀ t ∈ pySplitSpace tasks,
        (_evaluate_task happyEnv t conf).2 = Except.ok ()) ∧
      Event.run [osPathJoin p "scripts/create_artifact.sh"] none
        (some (pyDictUpdate happyEnv.osEnviron conf)) ∈ (runD2G happyEnv).1 ∧
      Event.run [osPathJoin p "scripts/print_results_student.py"] none
        (some (pyDictUpdate happyEnv.osEnviron conf)) ∈ (runD2G happyEnv).1 :=
  configs_loaded_once_never_mutated happyEnv (runD2G happyEnv).1 (by decide)

/-- C10: when a successfully loaded configuration lacks a required key,
the orchestrator dies with an uncaught `KeyError` naming that key -- the
trace stops at the subscript, contains no error print and no usage
reminder, and the interpreter exit status is 1, unlike the
`exit(-1)` path used for all other failures. -/
theorem missing_required_key_uncaught_keyerror :
    (∀ (env : PyEnv) (conf : Config),
      env.loadYaml "assignment.yml" none = LoadResult.ok conf →
      lookupc conf "ASSIGNMENT_DUE_DATE" = none →
      runD2G env = ([Event.print "Loading assignment configuration"],
        Except.error (Abort.keyError "ASSIGNMENT_DUE_DATE"))) ∧
    (∀ (env : PyEnv) (conf : Config) (due p : String),
      env.loadYaml "assignment.yml" none = LoadResult.ok conf →
      lookupc conf "ASSIGNMENT_DUE_DATE" = some due →
      lookupc env.osEnviron "D2G_PATH" = some p →
      env.runResult [osPathJoin p "scripts/checkout_due_date.sh", due] none none = 0 →
      lookupc conf "ASSIGNMENT_TEMPLATE_REPOSITORY" = none →
      runD2G env = ([Event.print "Loading assignment configuration",
        Event.print "Checking out due date",
        Event.run [osPathJoin p "scripts/checkout_due_date.sh", due] none none],
        Except.error (Abort.keyError "ASSIGNMENT_TEMPLATE_REPOSITORY"))) ∧
    (∀ (env : PyEnv) (conf : Config) (due repo p : String),
      env.loadYaml "assignment.yml" none = LoadResult.ok conf →
      lookupc conf "ASSIGNMENT_DUE_DATE" = some due →
      lookupc env.osEnviron "D2G_PATH" = some p →
      env.runResult [osPathJoin p "scripts/checkout_due_date.sh", due] none none = 0 →
      lookupc conf "ASSIGNMENT_TEMPLATE_REPOSITORY" = some repo →
      env.runResult [osPathJoin p "scripts/override_repo.py", "-a", "-r", repo]
        none none = 0 →
      lookupc conf "ASSIGNMENT_TASKS" = none →
      runD2G env = ([Event.print "Loading assignment configuration",
        Event.print "Checking out due date",
        Event.run [osPathJoin p "scripts/checkout_due_date.sh", due] none none,
        Event.print "Overriding repository for task None",
        Event.run [osPathJoin p "scripts/override_repo.py", "-a", "-r", repo] none none],
        Except.error (Abort.keyError "ASSIGNMENT_TASKS"))) ∧
    (∀ (env : PyEnv) (t repo : String) (conf tc : Config) (trOv : List Event),
      env.loadYaml (osPathJoin t "task.yml") (some (pyUpper t)) = LoadResult.ok tc →
      lookupc conf "ASSIGNMENT_TEMPLATE_REPOSITORY" = some repo →
      _override_repo env (some t) repo (some tc) = (trOv, Except.ok ()) →
      lookupc tc (pyUpper t ++ "_METRICS") = none →
      _evaluate_task env t conf =
        (Event.print ("Loading task configuration for task " ++ t) :: trOv,
         Except.error (Abort.keyError (pyUpper t ++ "_METRICS")))) ∧
    (∀ k, processExitCode (Except.error (Abort.keyError k) : Except Abort Unit) = 1) ∧
    (∀ k, (Except.error (Abort.keyError k) : Except Abort Unit) ≠
      Except.error Abort.errorExit) := by
  refine ⟨?_, ?_, ?_, ?_, fun k => rfl, fun k => by simp⟩
  · intro env conf hL hNone
    unfold runD2G _main
    simp only [M.bind_def]
    rw [load_assignment_eq env, hL]
    simp [pyGetItem_none hNone]
  · intro env conf due p hL hDue hP hrc hNone
    unfold runD2G _main
    simp only [M.bind_def]
    rw [load_assignment_eq env, hL]
    simp [pyGetItem_some hDue, checkout_eq env due p hP, hrc, pyGetItem_none hNone]
  · intro env conf due repo p hL hDue hP hrc1 hRepo hrc2 hNone
    unfold runD2G _main
    simp only [M.bind_def]
    rw [load_assignment_eq env, hL]
    simp [pyGetItem_some hDue, checkout_eq env due p hP, hrc1,
      pyGetItem_some hRepo, override_none_eq env repo p hP, hrc2,
      pyGetItem_none hNone]
  · intro env t repo conf tc trOv hLT hRepo hOv hNone
    unfold _evaluate_task
    simp only [M.bind_def]
    rw [load_task_eq env t, hLT]
    simp [pyGetItem_some hRepo, hOv, pyGetItem_none hNone]

/-- Witness for C10 at oracles whose configs lack one required key
each. -/
theorem missing_required_key_uncaught_keyerror_witness :
    runD2G noDueEnv = ([Event.print "Loading assignment configuration"],
      Except.error (Abort.keyError "ASSIGNMENT_DUE_DATE")) ∧
    runD2G noTemplEnv = ([Event.print "Loading assignment configuration",
      Event.print "Checking out due date",
      Event.run [osPathJoin "/d2g" "scripts/checkout_due_date.sh", "2024-01-01"]
        none none],
      Except.error (Abort.keyError "ASSIGNMENT_TEMPLATE_REPOSITORY")) ∧
    runD2G noTasksEnv = ([Event.print "Loading assignment configuration",
      Event.print "Checking out due date",
      Event.run [osPathJoin "/d2g" "scripts/checkout_due_date.sh", "2024-01-01"]
        none none,
      Event.print "Overriding repository for task None",
      Event.run [osPathJoin "/d2g" "scripts/override_repo.py", "-a", "-r",
        "https://example.com/tmpl.git"] none none],
      Except.error (Abort.keyError "ASSIGNMENT_TASKS")) ∧
    _evaluate_task noMetricsEnv "task1" demoAssignmentConf =
      (Event.print ("Loading task configuration for task " ++ "task1") ::
        [Event.print ("Overriding repository for task " ++ "task1"),
         Event.run [osPathJoin "/d2g" "scripts/override_repo.py", "-t", "task1", "-r",
           "https://example.com/tmpl.git"] (some "task1") (some [])],
       Except.error (Abort.keyError (pyUpper "task1" ++ "_METRICS"))) :=
  ⟨missing_required_key_uncaught_keyerror.1 noDueEnv
     [("ASSIGNMENT_TEMPLATE_REPOSITORY", "https://example.com/tmpl.git")] rfl (by decide),
   missing_required_key_uncaught_keyerror.2.1 noTemplEnv
     [("ASSIGNMENT_DUE_DATE", "2024-01-01")] "2024-01-01" "/d2g" rfl (by decide)
     (by decide) (by decide) (by decide),
   missing_required_key_uncaught_keyerror.2.2.1 noTasksEnv
     [("ASSIGNMENT_DUE_DATE", "2024-01-01"),
      ("ASSIGNMENT_TEMPLATE_REPOSITORY", "https://example.com/tmpl.git")]
     "2024-01-01" "https://example.com/tmpl.git" "/d2g" rfl (by decide) (by decide)
     (by decide) (by decide) (by decide) (by decide),
   missing_required_key_uncaught_keyerror.2.2.2.1 noMetricsEnv "task1"
     "https://example.com/tmpl.git" demoAssignmentConf []
     [Event.print ("Overriding repository for task " ++ "task1"),
      Event.run [osPathJoin "/d2g" "scripts/override_repo.py", "-t", "task1", "-r",
        "https://example.com/tmpl.git"] (some "task1") (some [])]
     rfl (by decide) (by decide) (by decide)⟩

end D2G
